import Mathlib

set_option linter.unusedVariables false

/-!
Verification of the "5 Python Built-in Functions and Modules That Save Time"
notebook: a shallow embedding of its five snippets (shelve persistence,
functools partial application, itertools batching with a thread-pool
benchmark, functools singledispatch, contextlib closing) together with
theorems about them.
-/

namespace Articles

/-! ## Batched snippet: constants from the benchmark cell -/

/-- `DATA = [1] * 20000` from the batching benchmark cell. -/
def DATA : List Nat := List.replicate 20000 1

/-- `MAX_WORKERS = 50`. -/
def MAX_WORKERS : Nat := 50

/-- `BATCH_SIZE = 400`. -/
def BATCH_SIZE : Nat := 400

/-- `SLEEP_TIME = 0.001` seconds, represented exactly as a rational. -/
def SLEEP_TIME : ℚ := 1 / 1000

/-- `itertools.batched(iterable, n)`: splits a sequence into consecutive
chunks of length `n`; the final chunk may be shorter.  (For `n = 0` Python
raises `ValueError`; the benchmark only uses `n = 400`, and we return `[]`
in that degenerate case.) -/
def batched (l : List α) (n : Nat) : List (List α) :=
  if l.isEmpty || n == 0 then []
  else l.take n :: batched (l.drop n) n
termination_by l.length
decreasing_by
  rename_i h
  simp only [Bool.or_eq_true, List.isEmpty_eq_true, beq_iff_eq, not_or] at h
  simp only [List.length_drop]
  exact Nat.sub_lt (List.length_pos.mpr h.1) (Nat.pos_of_ne_zero h.2)

theorem batched_nil (n : Nat) : batched ([] : List α) n = [] := by
  rw [batched]; simp

theorem batched_step (l : List α) (n : Nat) (hl : l ≠ []) (hn : n ≠ 0) :
    batched l n = l.take n :: batched (l.drop n) n := by
  rw [batched]
  simp [hl, hn]

/-- Splitting `n * k` copies of `a` into chunks of `n` gives `k` full chunks. -/
theorem batched_replicate (k n : Nat) (a : α) (hn : 0 < n) :
    batched (List.replicate (n * k) a) n = List.replicate k (List.replicate n a) := by
  induction k with
  | zero => simp [batched_nil]
  | succ k ih =>
    have hmul : n * (k + 1) = n + n * k := by ring
    have hne : List.replicate (n * (k + 1)) a ≠ [] :=
      List.ne_nil_of_length_pos (by simp [hmul]; omega)
    rw [batched_step _ _ hne (Nat.pos_iff_ne_zero.mp hn)]
    rw [hmul, List.take_replicate, List.drop_replicate]
    have h1 : min n (n + n * k) = n := by omega
    have h2 : n + n * k - n = n * k := by omega
    rw [h1, h2, ih]
    rfl

/-- As long as the chunk size is positive, concatenating the chunks in
order reproduces the original list. -/
theorem batched_flatten (l : List α) (n : Nat) (hn : n ≠ 0) :
    (batched l n).flatten = l := by
  by_cases hl : l = []
  · simp [hl, batched_nil]
  · rw [batched_step l n hl hn, List.flatten_cons,
      batched_flatten (l.drop n) n hn, List.take_append_drop]
termination_by l.length
decreasing_by
  simp only [List.length_drop]
  exact Nat.sub_lt (List.length_pos.mpr hl) (Nat.pos_of_ne_zero hn)

/-- The benchmark data is fifty batches of four hundred. -/
theorem batched_DATA :
    batched DATA BATCH_SIZE = List.replicate 50 (List.replicate 400 1) := by
  have h : (20000 : Nat) = 400 * 50 := by norm_num
  unfold DATA BATCH_SIZE
  rw [h]
  exact batched_replicate 50 400 1 (by norm_num)

/-- C1: `batched(DATA, BATCH_SIZE)` on the fixed 20,000-element list yields
exactly 50 chunks, each of length 400, and concatenating the chunks in order
reproduces the original list with no omissions or duplicates. -/
theorem C1_batched_partition :
    (batched DATA BATCH_SIZE).length = 50 ∧
    (∀ c ∈ batched DATA BATCH_SIZE, c.length = 400) ∧
    (batched DATA BATCH_SIZE).flatten = DATA := by
  refine ⟨?_, ?_, ?_⟩
  · rw [batched_DATA, List.length_replicate]
  · intro c hc
    rw [batched_DATA] at hc
    rw [List.eq_of_mem_replicate hc, List.length_replicate]
  · exact batched_flatten DATA BATCH_SIZE (by norm_num [BATCH_SIZE])

/-! ## Single Dispatch snippet

`functools.singledispatch` routes `process(value)` on the runtime type of
`value`.  The decorated original raises `NotImplementedError("Unsupported
type")`; `@process.register` adds a handler for `int` and one for `str`.
Dispatch walks the method resolution order of the argument type, so `bool`
(a subclass of `int` in Python) reaches the `int` handler. -/

/-- Runtime types of the Python values the dispatch snippet manipulates. -/
inductive PyType where
  | intT
  | boolT
  | strT
  | listT
  | noneT
deriving DecidableEq, Repr

/-- Python values in play: integers, booleans, strings, lists, None. -/
inductive Value where
  | int (n : ℤ)
  | bool (b : Bool)
  | str (s : String)
  | list (xs : List Value)
  | pynone

/-- The runtime type of a value. -/
def Value.typeOf : Value → PyType
  | .int _ => .intT
  | .bool _ => .boolT
  | .str _ => .strT
  | .list _ => .listT
  | .pynone => .noneT

/-- Method resolution order of each type, `object` left implicit: in Python,
`bool` is a subclass of `int`; the other types in play inherit only from
`object`. -/
def mro : PyType → List PyType
  | .boolT => [.boolT, .intT]
  | t => [t]

/-- The two registered handlers of `process`. -/
inductive Handler where
  | intHandler
  | strHandler
deriving DecidableEq, Repr

/-- The type-to-handler table built by the two `@process.register`
decorators at definition time (the fallback for `object` is the decorated
original, modelled below as the `none` branch of `dispatch`). -/
def registry : List (PyType × Handler) :=
  [(.intT, .intHandler), (.strT, .strHandler)]

/-- Dispatch: the first registered handler found along the MRO of the
argument type, `none` meaning the `object` fallback. -/
def dispatch (t : PyType) : Option Handler :=
  (mro t).findSome? fun s => List.lookup s registry

/-- Numeric value of a Python `int` argument; Python booleans are ints with
`True = 1` and `False = 0`. -/
def Value.intVal : Value → ℤ
  | .int n => n
  | .bool b => if b then 1 else 0
  | _ => 0

/-- String content of a Python `str` argument. -/
def Value.strVal : Value → String
  | .str s => s
  | _ => ""

/-- `process`: dispatch on the runtime type of the argument; the `int`
handler returns `value + 10`, the `str` handler returns `value.upper()`,
the fallback raises `NotImplementedError("Unsupported type")`. -/
def process (value : Value) : Except String Value :=
  match dispatch value.typeOf with
  | some .intHandler => .ok (.int (value.intVal + 10))
  | some .strHandler => .ok (.str value.strVal.toUpper)
  | none => .error "Unsupported type"

/-- Python `isinstance`, restricted to the types in play: `v` is an
instance of `t` when `t` appears in the MRO of the runtime type of `v`. -/
def isinstance (v : Value) (t : PyType) : Bool :=
  (mro v.typeOf).contains t

/-- The last lines of the demonstration cell: `process(["lama"])` inside
`try/except NotImplementedError as err`, which prints the caught error. -/
def demoCatchLine : String :=
  match process (.list [.str "lama"]) with
  | .ok _ => "no error"
  | .error msg => "NotImplementedError error caught: " ++ msg

/-- C2: `process` returns `n + 10` on every integer, the upper-cased form
of every string, and raises the unsupported-type error on every list. -/
theorem C2_process_dispatch :
    (∀ n : ℤ, process (.int n) = .ok (.int (n + 10))) ∧
    (∀ s : String, process (.str s) = .ok (.str s.toUpper)) ∧
    (∀ xs : List Value, process (.list xs) = .error "Unsupported type") :=
  ⟨fun _ => rfl, fun _ => rfl, fun _ => rfl⟩

/-- C10: booleans do not hit the fallback: dispatch walks the MRO of
`bool`, reaches the `int` handler, and returns `b + 10`; in particular
`process(True)` returns `11`. -/
theorem C10_process_bool :
    (∀ b : Bool, process (.bool b) = .ok (.int ((if b then 1 else 0) + 10))) ∧
    process (.bool true) = .ok (.int 11) :=
  ⟨fun _ => rfl, rfl⟩

/-- C5: on every argument that is an instance of neither `int` nor `str`,
`process` raises the fixed error with message `Unsupported type`, and the
demonstration caller catches that error and prints it. -/
theorem C5_unsupported_type (v : Value)
    (hint : isinstance v .intT = false) (hstr : isinstance v .strT = false) :
    process v = .error "Unsupported type" ∧
    demoCatchLine = "NotImplementedError error caught: Unsupported type" := by
  refine ⟨?_, rfl⟩
  cases v with
  | int n => simp [isinstance, mro, Value.typeOf] at hint
  | bool b => simp [isinstance, mro, Value.typeOf] at hint
  | str s => simp [isinstance, mro, Value.typeOf] at hstr
  | list xs => rfl
  | pynone => rfl

theorem C5_unsupported_type_witness :
    isinstance (.list []) .intT = false ∧
    isinstance (.list []) .strT = false ∧
    (process (.list []) = .error "Unsupported type" ∧
     demoCatchLine = "NotImplementedError error caught: Unsupported type") :=
  ⟨by decide, by decide, C5_unsupported_type (.list []) (by decide) (by decide)⟩

/-- C9: the handler table holds exactly the two handlers registered at
definition time — one for `int`, one for `str` — and every other type in
play has no entry, so it falls to the fallback; no operation of the
program writes to the table after definition (in this embedding it is a
constant). -/
theorem C9_registry_table :
    registry.length = 2 ∧
    List.lookup PyType.intT registry = some Handler.intHandler ∧
    List.lookup PyType.strT registry = some Handler.strHandler ∧
    (∀ t : PyType, List.lookup t registry = none ↔ (t ≠ .intT ∧ t ≠ .strT)) := by
  refine ⟨rfl, rfl, rfl, fun t => ?_⟩
  cases t <;> decide

/-! ## Batched snippet: the sleep traces of the benchmark tasks

Each task is modelled by the list of blocking delays (in seconds) it
performs. -/

/-- Delays performed by one call to `simulate_io_operation`: a single
`sleep(SLEEP_TIME)`. -/
def simulate_io_sleeps : List ℚ := [SLEEP_TIME]

/-- Delays performed by one `process_data(item)` task: one simulated I/O
call. -/
def process_data_sleeps (item : Nat) : List ℚ := simulate_io_sleeps

/-- Delays performed by one `process_data_in_batch(items)` task: one
simulated I/O call per item of the chunk. -/
def process_data_in_batch_sleeps (items : List Nat) : List ℚ :=
  (items.map fun _ => simulate_io_sleeps).flatten

/-- The tasks `test_single` submits to its pool:
`executor.map(process_data, DATA)`. -/
def test_single_tasks : List (List ℚ) := DATA.map process_data_sleeps

/-- The tasks `test_batch` submits to its pool:
`executor.map(process_data_in_batch, batched(DATA, BATCH_SIZE))`. -/
def test_batch_tasks : List (List ℚ) :=
  (batched DATA BATCH_SIZE).map process_data_in_batch_sleeps

/-- A batch task sleeps once per item of its chunk. -/
theorem process_data_in_batch_sleeps_sum (items : List Nat) :
    (process_data_in_batch_sleeps items).sum = items.length * SLEEP_TIME := by
  induction items with
  | nil => simp [process_data_in_batch_sleeps]
  | cons x xs ih =>
    simp only [process_data_in_batch_sleeps, List.map_cons, List.flatten_cons,
      List.sum_append, List.length_cons] at *
    rw [ih]
    simp [simulate_io_sleeps]
    ring

/-- C3 is false as stated: not every task submitted in the batch strategy
performs a total delay of 1 millisecond — the first chunk task sleeps 400
times. -/
theorem C3_counterexample :
    ¬ ((∀ task ∈ test_single_tasks, task.sum = 1 / 1000) ∧
       (∀ task ∈ test_batch_tasks, task.sum = 1 / 1000)) := by
  intro h
  have hmem : process_data_in_batch_sleeps (List.replicate 400 1) ∈ test_batch_tasks := by
    rw [test_batch_tasks, batched_DATA]
    exact List.mem_map_of_mem _ (List.mem_replicate.mpr ⟨by norm_num, rfl⟩)
  have h400 := h.2 _ hmem
  rw [process_data_in_batch_sleeps_sum, List.length_replicate] at h400
  norm_num [SLEEP_TIME] at h400

/-- C3 (amended): every call to `simulate_io_operation` performs a fixed
blocking delay of exactly 1 millisecond; hence every task of the
one-task-per-element strategy delays exactly 1 millisecond, while every
task of the one-task-per-chunk strategy delays 1 millisecond per element
of its chunk, here 400 milliseconds. -/
theorem C3_task_delays :
    simulate_io_sleeps = [1 / 1000] ∧
    (∀ task ∈ test_single_tasks, task.sum = 1 / 1000) ∧
    (∀ task ∈ test_batch_tasks, task.sum = 400 * (1 / 1000)) := by
  refine ⟨by norm_num [simulate_io_sleeps, SLEEP_TIME], ?_, ?_⟩
  · intro task htask
    obtain ⟨_, _, rfl⟩ := List.mem_map.mp htask
    norm_num [process_data_sleeps, simulate_io_sleeps, SLEEP_TIME]
  · intro task htask
    rw [test_batch_tasks, batched_DATA] at htask
    obtain ⟨chunk, hchunk, rfl⟩ := List.mem_map.mp htask
    rw [List.eq_of_mem_replicate hchunk, process_data_in_batch_sleeps_sum,
      List.length_replicate]
    norm_num [SLEEP_TIME]

theorem C3_task_delays_witness :
    (process_data_sleeps 1 ∈ test_single_tasks ∧
      (process_data_sleeps 1).sum = 1 / 1000) ∧
    (process_data_in_batch_sleeps (List.replicate 400 1) ∈ test_batch_tasks ∧
      (process_data_in_batch_sleeps (List.replicate 400 1)).sum = 400 * (1 / 1000)) := by
  have h1 : process_data_sleeps 1 ∈ test_single_tasks :=
    List.mem_map_of_mem _ (List.mem_replicate.mpr ⟨by norm_num, rfl⟩)
  have h2 : process_data_in_batch_sleeps (List.replicate 400 1) ∈ test_batch_tasks := by
    rw [test_batch_tasks, batched_DATA]
    exact List.mem_map_of_mem _ (List.mem_replicate.mpr ⟨by norm_num, rfl⟩)
  exact ⟨⟨h1, C3_task_delays.2.1 _ h1⟩, ⟨h2, C3_task_delays.2.2 _ h2⟩⟩

theorem C1_batched_partition_witness :
    List.replicate 400 1 ∈ batched DATA BATCH_SIZE ∧
    (List.replicate 400 1).length = 400 := by
  have hmem : List.replicate 400 1 ∈ batched DATA BATCH_SIZE := by
    rw [batched_DATA]
    exact List.mem_replicate.mpr ⟨by norm_num, rfl⟩
  exact ⟨hmem, C1_batched_partition.2.1 _ hmem⟩

/-! ## Partial snippet

`post = functools.partial(session.post, url=graphql_url)` wraps
`session.post` with the target endpoint pre-bound; the cell then invokes
`post` twice, each time with a different GraphQL payload.  A session is
modelled by the log of HTTP calls it has issued. -/

/-- One HTTP POST call issued through the session. -/
structure Call where
  url : String
  payload : String
deriving DecidableEq, Repr

/-- The GraphQL endpoint bound into `post`. -/
def graphql_url : String := "https://countries.trevorblades.com/"

/-- `session.post(url=..., json=...)`: issues one call, appended to the
log of calls the session has issued so far. -/
def session_post (log : List Call) (url : String) (json : String) : List Call :=
  log ++ [{ url := url, payload := json }]

/-- The bound-argument wrapper: `session.post` with `url` fixed to
`graphql_url`; only the payload remains to be supplied. -/
def post (log : List Call) (json : String) : List Call :=
  session_post log graphql_url json

/-- C7: invoking `post` once with each of two distinct payloads issues
exactly two calls, both targeting the pre-bound endpoint, carrying the two
payloads in order. -/
theorem C7_post_bound (p1 p2 : String) (hne : p1 ≠ p2) :
    post (post [] p1) p2 =
      [{ url := graphql_url, payload := p1 }, { url := graphql_url, payload := p2 }] ∧
    (post (post [] p1) p2).length = 2 ∧
    (∀ c ∈ post (post [] p1) p2, c.url = graphql_url) := by
  refine ⟨rfl, rfl, ?_⟩
  intro c hc
  simp only [post, session_post, List.nil_append, List.cons_append,
    List.mem_cons, List.not_mem_nil, or_false] at hc
  rcases hc with h | h <;> subst h <;> rfl

theorem C7_post_bound_witness :
    ("continents" : String) ≠ "country" ∧
    (post (post [] "continents") "country").length = 2 :=
  ⟨by decide, (C7_post_bound "continents" "country" (by decide)).2.1⟩

/-! ## Shelve snippet -/

/-- Modelled from the spec: the disk file behind `shelve.open`, a
disk-backed mapping from string keys to arbitrary serialized values —
`shelve` is standard-library code, not code under `src/`. -/
structure Disk (α : Type) where
  get : String → Option α

/-- An open shelf handle: the in-memory dictionary view of the disk. -/
structure Shelf (α : Type) where
  get : String → Option α

/-- Modelled from the spec: `shelve.open(path)` loads the mapping stored
on disk. -/
def shelve_open (d : Disk α) : Shelf α := ⟨d.get⟩

/-- Modelled from the spec: `db[key] = value` — the mapping is mutated by
direct key assignment. -/
def Shelf.set (s : Shelf α) (key : String) (value : α) : Shelf α :=
  ⟨fun k => if k = key then some value else s.get k⟩

/-- Modelled from the spec: leaving the `with` block closes the shelf and
persists its contents back to disk. -/
def Shelf.close (s : Shelf α) : Disk α := ⟨s.get⟩

/-- `db[key]` lookup on an open shelf. -/
def Shelf.read (s : Shelf α) (key : String) : Option α := s.get key

/-- The first `with` block of the cell: open the mapping, store the
response under key `example_response`, close. -/
def store_response (d : Disk α) (response : α) : Disk α :=
  ((shelve_open d).set "example_response" response).close

/-- The second `with` block: reopen the mapping and read back the value
under key `example_response`. -/
def read_response (d : Disk α) : Option α :=
  (shelve_open d).read "example_response"

/-- C6: writing a value under key `example_response`, closing, reopening
and reading that key returns exactly the value written, whatever the value
and whatever the prior contents of the disk. -/
theorem C6_shelve_roundtrip (α : Type) (d : Disk α) (response : α) :
    read_response (store_response d response) = some response := by
  simp [read_response, store_response, shelve_open, Shelf.set, Shelf.close, Shelf.read]

/-! ## Closing snippet -/

/-- A database cursor; `closes` counts how many times its close operation
has been invoked. -/
structure Cursor where
  closes : Nat
deriving DecidableEq, Repr

/-- `cursor.close()`. -/
def Cursor.close (c : Cursor) : Cursor := { closes := c.closes + 1 }

/-- Modelled from the spec: `contextlib.closing` — the release operation
runs when the owning scope ends, regardless of how it ends: run the body,
then invoke `close` once, whether the body returned normally or raised. -/
def closing (c : Cursor) (body : Cursor → Except String α × Cursor) :
    Except String α × Cursor :=
  let r := body c
  (r.1, r.2.close)

/-- `cursor.execute(...)` for the sample query, parametrised by whether
the query raises, since execution happens inside sqlite3. -/
def cursor_execute (outcome : Except String Unit) (c : Cursor) :
    Except String Unit × Cursor := (outcome, c)

/-- `cursor.fetchall()` after the sample query selecting the literal
string HELLO WORLD. -/
def cursor_fetchall (c : Cursor) : List String × Cursor := (["HELLO WORLD"], c)

/-- The body of the `with closing(connection.cursor()) as cursor` block:
execute the query, then fetch the rows; a raise propagates out. -/
def query_block (outcome : Except String Unit) (c : Cursor) :
    Except String (List String) × Cursor :=
  match cursor_execute outcome c with
  | (.ok _, c1) =>
    let r := cursor_fetchall c1
    (.ok r.1, r.2)
  | (.error e, c1) => (.error e, c1)

/-- The whole snippet, from a fresh cursor. -/
def closing_snippet (outcome : Except String Unit) :
    Except String (List String) × Cursor :=
  closing { closes := 0 } (query_block outcome)

/-- C8: on every exit path of the block — the query succeeding or raising —
the close operation of the cursor runs exactly once; a success returns the
fetched rows and a raise propagates the error. -/
theorem C8_cursor_closed_once :
    (∀ outcome, (closing_snippet outcome).2.closes = 1) ∧
    (closing_snippet (.ok ())).1 = .ok ["HELLO WORLD"] ∧
    (∀ msg, (closing_snippet (.error msg)).1 = .error msg) := by
  refine ⟨fun outcome => ?_, rfl, fun _ => rfl⟩
  cases outcome <;> rfl

end Articles
